import Mathlib

/-!
Verification of the loyalty-ledger engine of `datamanager.py`
(casona-acai/casona-api-manual-upload).

The database state is embedded shallowly: the four tables become lists of
records, dates become integers (days), monetary amounts become rationals,
and each transactional method of `DataManager` becomes a pure function
from a `DB` to a result together with the post-transaction `DB`.
A raised database error inside a transaction is modelled by returning the
original `DB` (the `except` branch performs `conn.rollback()`).
Randomness (`random.randint(10000, 99999)`) is modelled by passing the
stream of draws as an explicit list of code strings, of which the code
consumes exactly as many as it draws.
-/

/-- Python `int(x)` truncates toward zero. -/
def pyTrunc (q : ℚ) : ℤ := if 0 ≤ q then ⌊q⌋ else ⌈q⌉

/-- Python `round(x, 2)`: rounding to two decimal places.  Every use in the
source rounds an integer divided by 100, where all tie-breaking conventions
agree, so the generic `round` closure is adequate. -/
def round2 (q : ℚ) : ℚ := (round (q * 100) : ℤ) / 100

/-- Row of the `clientes` table (only the columns the ledger engine touches
are listed individually; the remaining audit columns are carried verbatim so
that frame conditions are expressible). -/
structure Cliente where
  codigo : String
  nome : String
  telefone : Option String
  email : Option String
  cep : Option String
  total_compras : Nat
  total_gasto : ℚ
  pontos_acumulados : ℤ
  compras_ciclo_atual : Nat
  loja_origem : Option String
  deriving Repr, DecidableEq

/-- Row of the `compras` table (append-only purchase ledger). -/
structure Compra where
  codigo_cliente : String
  numero_compra_geral : Nat
  valor : ℚ
  pontos_gerados : ℤ
  data : ℤ
  loja_compra : String
  deriving Repr, DecidableEq

/-- Row of the `premios_ativos` table: `codigo_premio` is the primary key,
`codigo_cliente` carries a UNIQUE constraint. -/
structure PremioAtivo where
  codigo_premio : String
  codigo_cliente : String
  pontos_premio : ℤ
  data_geracao : ℤ
  data_ultima_atualizacao : ℤ
  deriving Repr, DecidableEq

/-- Row of the `premios_resgatados` table (append-only redemption history). -/
structure PremioResgatado where
  codigo_premio : String
  codigo_cliente : String
  pontos_resgatados : ℤ
  valor_resgatado : ℚ
  data_geracao : ℤ
  data_resgate : ℤ
  loja_resgate : String
  deriving Repr, DecidableEq

/-- The whole database state. -/
structure DB where
  clientes : List Cliente
  compras : List Compra
  premios_ativos : List PremioAtivo
  premios_resgatados : List PremioResgatado
  deriving Repr, DecidableEq

/-- Result dictionary built by `registrar_compra` on success. -/
structure ResultadoCompra where
  pontos_nesta_compra : ℤ
  compras_no_ciclo : Nat
  pontos_acumulados : ℤ
  codigo_premio_ativo : Option String
  premio_gerado_nesta_compra : Bool
  deriving Repr, DecidableEq

/-- Outcome of `registrar_compra`: `notFound` is the `return None` path,
`falha` is a raised exception after rollback, `ok` carries the result dict. -/
inductive RegStatus where
  | notFound
  | falha
  | ok (r : ResultadoCompra)
  deriving Repr, DecidableEq

/-- Outcome of `resgatar_premio`: `(False, msg)` or `(True, msg)` with the
redeemed monetary value. -/
inductive ResgateStatus where
  | notFound
  | ok (valor : ℚ)
  deriving Repr, DecidableEq

/-- The SQL SUM in `_calcular_pontos_validos`: total of `pontos_gerados` over
the purchases of a customer dated inside the trailing 180-day window. -/
def soma_pontos_janela (codigo_cliente : String) (today : ℤ) (compras : List Compra) : ℤ :=
  ((compras.filter
      (fun co => co.codigo_cliente == codigo_cliente && decide (today - 180 ≤ co.data))).map
    (fun co => co.pontos_gerados)).sum

/-- Embedding of `DataManager._calcular_pontos_validos` (datamanager.py lines 134-141):
computes the 180-day window sum, writes it onto the cached
`pontos_acumulados` column of the customer row, and returns it. -/
def calcular_pontos_validos (codigo_cliente : String) (today : ℤ) (db : DB) : ℤ × DB :=
  let pontos_validos := soma_pontos_janela codigo_cliente today db.compras
  (pontos_validos,
    { db with clientes := db.clientes.map (fun cl =>
        if cl.codigo == codigo_cliente
          then { cl with pontos_acumulados := pontos_validos } else cl) })

/-- Embedding of `DataManager.registrar_compra` (datamanager.py lines 180-247).
`codes` is the stream of values drawn from `random.randint(10000, 99999)`;
the function consumes at most its head, because the source draws once. -/
def registrar_compra (codigo : String) (valor : ℚ) (loja_compra : String)
    (today : ℤ) (codes : List String) (db : DB) : RegStatus × DB :=
  match db.clientes.find? (fun cl => cl.codigo == codigo) with
  | none => (RegStatus.notFound, db)
  | some cliente_data =>
    let pontos_gerados : ℤ := pyTrunc (valor * 100)
    let data_atual : ℤ := today
    let compras_ciclo_atual_novo : Nat := cliente_data.compras_ciclo_atual + 1
    let total_compras_geral : Nat := cliente_data.total_compras + 1
    let nova_compra : Compra :=
      { codigo_cliente := codigo, numero_compra_geral := total_compras_geral,
        valor := valor, pontos_gerados := pontos_gerados, data := data_atual,
        loja_compra := loja_compra }
    let db1 : DB := { db with compras := db.compras ++ [nova_compra] }
    let db2 : DB := { db1 with clientes := db1.clientes.map (fun cl =>
        if cl.codigo == codigo then
            { cl with total_compras := cl.total_compras + 1,
                      total_gasto := cl.total_gasto + valor,
                      compras_ciclo_atual := compras_ciclo_atual_novo }
          else cl) }
    let pontos_totais_validos : ℤ := (calcular_pontos_validos codigo today db2).1
    let db3 : DB := (calcular_pontos_validos codigo today db2).2
    match db3.premios_ativos.find? (fun p => p.codigo_cliente == codigo) with
    | some premio_ativo =>
      (RegStatus.ok
        { pontos_nesta_compra := pontos_gerados,
          compras_no_ciclo := compras_ciclo_atual_novo,
          pontos_acumulados := pontos_totais_validos,
          codigo_premio_ativo := some premio_ativo.codigo_premio,
          premio_gerado_nesta_compra := false },
       { db3 with premios_ativos := db3.premios_ativos.map (fun p =>
          if p.codigo_cliente == codigo then
              { p with pontos_premio := p.pontos_premio + pontos_gerados,
                       data_ultima_atualizacao := data_atual }
            else p) })
    | none =>
      if compras_ciclo_atual_novo ≥ 5 ∧ pontos_totais_validos > 0 then
        let codigo_premio_ativo : String := codes.headD "10000"
        if db3.premios_ativos.any
            (fun p => p.codigo_premio == codigo_premio_ativo || p.codigo_cliente == codigo) then
          (RegStatus.falha, db)
        else
          (RegStatus.ok
            { pontos_nesta_compra := pontos_gerados,
              compras_no_ciclo := compras_ciclo_atual_novo,
              pontos_acumulados := pontos_totais_validos,
              codigo_premio_ativo := some codigo_premio_ativo,
              premio_gerado_nesta_compra := true },
           { db3 with premios_ativos := db3.premios_ativos ++
              [{ codigo_premio := codigo_premio_ativo, codigo_cliente := codigo,
                 pontos_premio := pontos_totais_validos, data_geracao := data_atual,
                 data_ultima_atualizacao := data_atual }] })
      else
        (RegStatus.ok
          { pontos_nesta_compra := pontos_gerados,
            compras_no_ciclo := compras_ciclo_atual_novo,
            pontos_acumulados := pontos_totais_validos,
            codigo_premio_ativo := none,
            premio_gerado_nesta_compra := false },
         db3)

/-- Embedding of `DataManager.resgatar_premio` (datamanager.py lines 303-333). -/
def resgatar_premio (codigo_premio : String) (loja_resgate : String)
    (today : ℤ) (db : DB) : ResgateStatus × DB :=
  match db.premios_ativos.find? (fun p => p.codigo_premio == codigo_premio) with
  | none => (ResgateStatus.notFound, db)
  | some premio_ativo =>
    let codigo_cliente : String := premio_ativo.codigo_cliente
    let pontos_resgatados : ℤ := premio_ativo.pontos_premio
    let valor_resgatado : ℚ := round2 ((pontos_resgatados : ℚ) / 100)
    let data_resgate_atual : ℤ := today
    let db1 : DB := { db with premios_resgatados := db.premios_resgatados ++
        [{ codigo_premio := codigo_premio, codigo_cliente := codigo_cliente,
           pontos_resgatados := pontos_resgatados, valor_resgatado := valor_resgatado,
           data_geracao := premio_ativo.data_geracao, data_resgate := data_resgate_atual,
           loja_resgate := loja_resgate }] }
    let db2 : DB := { db1 with premios_ativos := db1.premios_ativos.filter (fun p =>
        !(p.codigo_premio == codigo_premio)) }
    let db3 : DB := { db2 with clientes := db2.clientes.map (fun cl =>
        if cl.codigo == codigo_cliente
          then { cl with compras_ciclo_atual := 0 } else cl) }
    (ResgateStatus.ok valor_resgatado, (calcular_pontos_validos codigo_cliente today db3).2)

/-- One ledger-engine operation, for reasoning about arbitrary interleavings. -/
inductive Op where
  | compra (codigo : String) (valor : ℚ) (loja : String) (today : ℤ) (codes : List String)
  | resgate (codigo_premio : String) (loja : String) (today : ℤ)
  deriving Repr, DecidableEq

/-- Post-state of one operation (the status is irrelevant to state invariants). -/
def applyOp (db : DB) : Op → DB
  | Op.compra codigo valor loja today codes => (registrar_compra codigo valor loja today codes db).2
  | Op.resgate codigo_premio loja today => (resgatar_premio codigo_premio loja today db).2

/-- Post-state of a sequence of operations. -/
def applyOps (db : DB) (ops : List Op) : DB := ops.foldl applyOp db

/-- The per-customer uniqueness invariant of `premios_ativos`
(UNIQUE constraint on `codigo_cliente`). -/
def premio_unico (db : DB) : Prop :=
  ∀ s : String, db.premios_ativos.countP (fun p => p.codigo_cliente == s) ≤ 1

/-- The Purchase row inserted by `registrar_compra` for customer row `c`. -/
def compraInserida (codigo : String) (valor : ℚ) (loja : String) (today : ℤ)
    (c : Cliente) : Compra :=
  { codigo_cliente := codigo, numero_compra_geral := c.total_compras + 1, valor := valor,
    pontos_gerados := pyTrunc (valor * 100), data := today, loja_compra := loja }

/-- The customer-row update performed by a successful `registrar_compra`
(the UPDATE of step 4 composed with the cache write of step 5). -/
def clienteAtualizado (valor : ℚ) (novo_ciclo : Nat) (soma : ℤ) (cl : Cliente) : Cliente :=
  { cl with total_compras := cl.total_compras + 1,
            total_gasto := cl.total_gasto + valor,
            compras_ciclo_atual := novo_ciclo,
            pontos_acumulados := soma }

/-- A generic customer row used in concrete scenarios. -/
def clienteSimples (codigo : String) (tc : Nat) (tg : ℚ) (pa : ℤ) (ciclo : Nat) : Cliente :=
  { codigo := codigo, nome := "Cliente", telefone := none, email := none, cep := none,
    total_compras := tc, total_gasto := tg, pontos_acumulados := pa,
    compras_ciclo_atual := ciclo, loja_origem := none }

/-- An active prize held by customer 00001 under code 11111. -/
def premioColisao : PremioAtivo :=
  { codigo_premio := "11111", codigo_cliente := "00001", pontos_premio := 2000,
    data_geracao := 90, data_ultima_atualizacao := 90 }

/-- A state where customer 00002 is one purchase away from the threshold
while code 11111 is already taken by customer 00001. -/
def dbColisao : DB :=
  { clientes := [clienteSimples "00001" 5 20 2000 5, clienteSimples "00002" 4 8 800 4],
    compras := [],
    premios_ativos := [premioColisao],
    premios_resgatados := [] }

def premioW : PremioAtivo :=
  { codigo_premio := "12345", codigo_cliente := "00001", pontos_premio := 4000,
    data_geracao := 102, data_ultima_atualizacao := 103 }

def compraW : Compra :=
  { codigo_cliente := "00001", numero_compra_geral := 1, valor := 40,
    pontos_gerados := 4000, data := 100, loja_compra := "L" }

def dbPremio : DB :=
  { clientes := [clienteSimples "00001" 6 40 4000 6],
    compras := [compraW],
    premios_ativos := [premioW],
    premios_resgatados := [] }

-- find? discharges
example : dbPremio.premios_ativos.find? (fun q => q.codigo_premio == "12345") = some premioW := by
  decide
example : dbPremio.clientes.find? (fun cl => cl.codigo == "00001")
    = some (clienteSimples "00001" 6 40 4000 6) := by decide
example : dbPremio.clientes.find? (fun cl => cl.codigo == "99999") = none := by decide

def dbZero : DB :=
  { clientes := [clienteSimples "00001" 0 0 0 0], compras := [],
    premios_ativos := [], premios_resgatados := [] }

def rZero : ResultadoCompra :=
  { pontos_nesta_compra := 1000, compras_no_ciclo := 1, pontos_acumulados := 1000,
    codigo_premio_ativo := none, premio_gerado_nesta_compra := false }

def dbCiclo4 : DB :=
  { clientes := [clienteSimples "00001" 4 30 3000 4], compras := [],
    premios_ativos := [], premios_resgatados := [] }

def rGera : ResultadoCompra :=
  { pontos_nesta_compra := 1000, compras_no_ciclo := 5, pontos_acumulados := 1000,
    codigo_premio_ativo := some "77777", premio_gerado_nesta_compra := true }

/-! ### Helper lemmas and claim theorems -/

/-- An UPDATE ... WHERE applied below a SELECT ... WHERE with the same
predicate: `find?` after the conditional map returns the updated row. -/
theorem find?_update {α : Type} (p : α → Bool) (g : α → α) (l : List α)
    (hg : ∀ x, p x = true → p (g x) = true) :
    (l.map (fun x => if p x then g x else x)).find? p = (l.find? p).map g := by
  induction l with
  | nil => rfl
  | cons a t ih =>
    by_cases ha : p a = true
    · simp [List.find?_cons, ha, hg a ha]
    · simp only [List.map_cons, List.find?_cons, if_neg ha]
      rw [Bool.not_eq_true] at ha
      simp [ha, ih]

/-- Two successive conditional UPDATEs with the same WHERE predicate fuse
into one, provided the first preserves the predicate. -/
theorem map_update_update {α : Type} (p : α → Bool) (g₁ g₂ : α → α) (l : List α)
    (h : ∀ x, p (g₁ x) = p x) :
    ((l.map (fun x => if p x then g₁ x else x)).map (fun x => if p x then g₂ x else x))
      = l.map (fun x => if p x then g₂ (g₁ x) else x) := by
  rw [List.map_map]
  apply List.map_congr_left
  intro x _
  by_cases hx : p x = true
  · simp [hx, h x]
  · rw [Bool.not_eq_true] at hx
    simp [hx, h x]

/-- C5: for every customer, `_calcular_pontos_validos` returns the sum of
`pontos_gerados` over the Purchase rows of that customer dated within the
trailing 180-day window, writes that same sum onto the cached balance of the
customer row, and returns it; a customer with zero purchases yields 0, and
purchases older than 180 days are excluded from the sum but not deleted. -/
theorem calcular_pontos_validos_spec (codigo : String) (today : ℤ) (db : DB) (c : Cliente)
    (hc : db.clientes.find? (fun cl => cl.codigo == codigo) = some c) :
    (calcular_pontos_validos codigo today db).1
        = ((db.compras.filter (fun co =>
            co.codigo_cliente == codigo && decide (today - 180 ≤ co.data))).map
          (fun co => co.pontos_gerados)).sum
    ∧ (db.compras.filter (fun co => co.codigo_cliente == codigo) = [] →
        (calcular_pontos_validos codigo today db).1 = 0)
    ∧ ((calcular_pontos_validos codigo today db).2).clientes.find?
          (fun cl => cl.codigo == codigo)
        = some { c with pontos_acumulados := (calcular_pontos_validos codigo today db).1 }
    ∧ ((calcular_pontos_validos codigo today db).2).compras = db.compras
    ∧ ((calcular_pontos_validos codigo today db).2).premios_ativos = db.premios_ativos
    ∧ ((calcular_pontos_validos codigo today db).2).premios_resgatados = db.premios_resgatados := by
  refine ⟨rfl, ?_, ?_, rfl, rfl, rfl⟩
  · intro hnil
    have hsub : db.compras.filter (fun co =>
        co.codigo_cliente == codigo && decide (today - 180 ≤ co.data)) = [] := by
      rw [List.filter_eq_nil_iff] at hnil ⊢
      intro a ha
      have := hnil a ha
      simp only [Bool.and_eq_true, not_and] at *
      intro h1
      exact absurd h1 this
    simp only [calcular_pontos_validos, soma_pontos_janela, hsub]
    rfl
  · show (db.clientes.map (fun cl =>
        if cl.codigo == codigo then
          { cl with pontos_acumulados := soma_pontos_janela codigo today db.compras }
        else cl)).find? (fun cl => cl.codigo == codigo) = _
    rw [find?_update (fun cl => cl.codigo == codigo)
        (fun cl => { cl with pontos_acumulados := soma_pontos_janela codigo today db.compras })
        db.clientes (fun x hx => hx), hc]
    rfl

/-- C9: `registrar_compra` on an unknown customer identifier returns the
NotFound outcome with the database untouched, and every raised database
error inside the transaction rolls back, so the post-state equals the
pre-state whenever the outcome is a failure. -/
theorem registrar_compra_notFound_rollback (codigo : String) (valor : ℚ) (loja : String)
    (today : ℤ) (codes : List String) (db : DB) :
    (db.clientes.find? (fun cl => cl.codigo == codigo) = none →
      registrar_compra codigo valor loja today codes db = (RegStatus.notFound, db))
    ∧ (∀ db', registrar_compra codigo valor loja today codes db = (RegStatus.falha, db') →
      db' = db) := by
  constructor
  · intro hnone
    simp [registrar_compra, hnone]
  · intro db' hrun
    unfold registrar_compra at hrun
    cases hfind : db.clientes.find? (fun cl => cl.codigo == codigo) with
    | none => simp [hfind] at hrun
    | some c =>
      simp only [hfind] at hrun
      split at hrun
      · simp at hrun
      · split at hrun
        · split at hrun
          · exact (Prod.mk.injEq _ _ _ _ ▸ hrun).2.symm
          · simp at hrun
        · simp at hrun

/-- State and result components common to every successful path of
`registrar_compra` (they are fixed before the prize branch). -/
theorem registrar_compra_ok_frame (codigo : String) (valor : ℚ) (loja : String) (today : ℤ)
    (codes : List String) (db : DB) (c : Cliente) (r : ResultadoCompra) (db' : DB)
    (hc : db.clientes.find? (fun cl => cl.codigo == codigo) = some c)
    (hrun : registrar_compra codigo valor loja today codes db = (RegStatus.ok r, db')) :
    db'.compras = db.compras ++ [compraInserida codigo valor loja today c]
    ∧ db'.clientes = db.clientes.map (fun cl =>
        if cl.codigo == codigo then
          { cl with total_compras := cl.total_compras + 1,
                    total_gasto := cl.total_gasto + valor,
                    compras_ciclo_atual := c.compras_ciclo_atual + 1,
                    pontos_acumulados := soma_pontos_janela codigo today
                      (db.compras ++ [compraInserida codigo valor loja today c]) }
        else cl)
    ∧ db'.premios_resgatados = db.premios_resgatados
    ∧ r.pontos_nesta_compra = pyTrunc (valor * 100)
    ∧ r.compras_no_ciclo = c.compras_ciclo_atual + 1
    ∧ r.pontos_acumulados = soma_pontos_janela codigo today
        (db.compras ++ [compraInserida codigo valor loja today c]) := by
  unfold registrar_compra at hrun
  simp only [hc, calcular_pontos_validos, compraInserida] at hrun
  simp only [compraInserida]
  split at hrun
  · obtain ⟨h1, h2⟩ := Prod.mk.injEq _ _ _ _ ▸ hrun
    obtain rfl := (RegStatus.ok.injEq _ _).mp h1
    subst h2
    refine ⟨rfl, ?_, rfl, rfl, rfl, rfl⟩
    apply map_update_update
    intro x
    rfl
  · split at hrun
    · split at hrun
      · simp at hrun
      · obtain ⟨h1, h2⟩ := Prod.mk.injEq _ _ _ _ ▸ hrun
        obtain rfl := (RegStatus.ok.injEq _ _).mp h1
        subst h2
        refine ⟨rfl, ?_, rfl, rfl, rfl, rfl⟩
        apply map_update_update
        intro x
        rfl
    · obtain ⟨h1, h2⟩ := Prod.mk.injEq _ _ _ _ ▸ hrun
      obtain rfl := (RegStatus.ok.injEq _ _).mp h1
      subst h2
      refine ⟨rfl, ?_, rfl, rfl, rfl, rfl⟩
      apply map_update_update
      intro x
      rfl

/-- C6: for every existing customer and amount > 0, `registrar_compra`
inserts a Purchase row whose per-customer sequence number equals the prior
lifetime purchase count plus 1, and increments the lifetime purchase count
by 1, the lifetime amount spent by the amount, and the cycle purchase count
by 1. -/
theorem registrar_compra_insere (codigo : String) (valor : ℚ) (loja : String) (today : ℤ)
    (codes : List String) (db : DB) (c : Cliente) (r : ResultadoCompra) (db' : DB)
    (_hval : 0 < valor)
    (hc : db.clientes.find? (fun cl => cl.codigo == codigo) = some c)
    (hrun : registrar_compra codigo valor loja today codes db = (RegStatus.ok r, db')) :
    db'.compras = db.compras ++
      [{ codigo_cliente := codigo, numero_compra_geral := c.total_compras + 1, valor := valor,
         pontos_gerados := pyTrunc (valor * 100), data := today, loja_compra := loja }]
    ∧ r.pontos_nesta_compra = pyTrunc (valor * 100)
    ∧ r.compras_no_ciclo = c.compras_ciclo_atual + 1
    ∧ ∃ c', db'.clientes.find? (fun cl => cl.codigo == codigo) = some c'
        ∧ c'.total_compras = c.total_compras + 1
        ∧ c'.total_gasto = c.total_gasto + valor
        ∧ c'.compras_ciclo_atual = c.compras_ciclo_atual + 1 := by
  obtain ⟨h1, h2, h3, h4, h5, h6⟩ :=
    registrar_compra_ok_frame codigo valor loja today codes db c r db' hc hrun
  refine ⟨h1, h4, h5, ?_⟩
  have hfd := find?_update (fun cl : Cliente => cl.codigo == codigo)
    (clienteAtualizado valor (c.compras_ciclo_atual + 1)
      (soma_pontos_janela codigo today
        (db.compras ++ [compraInserida codigo valor loja today c])))
    db.clientes (fun x hx => hx)
  rw [hc] at hfd
  exact ⟨_, by rw [h2]; exact hfd, rfl, rfl, rfl⟩

/-- C7: a purchase registered while the customer has an ActivePrize adds
exactly the generated points of the new purchase to the prize total, sets
its last-update date to the current date, leaves its code unchanged,
creates no new prize, and still increments the cycle counter; the result
reports the existing code and no newly generated prize. -/
theorem registrar_compra_acumula (codigo : String) (valor : ℚ) (loja : String) (today : ℤ)
    (codes : List String) (db : DB) (c : Cliente) (p : PremioAtivo) (st : RegStatus) (db' : DB)
    (hc : db.clientes.find? (fun cl => cl.codigo == codigo) = some c)
    (hp : db.premios_ativos.find? (fun q => q.codigo_cliente == codigo) = some p)
    (hrun : registrar_compra codigo valor loja today codes db = (st, db')) :
    db'.premios_ativos = db.premios_ativos.map (fun q =>
      if q.codigo_cliente == codigo then
        { q with pontos_premio := q.pontos_premio + pyTrunc (valor * 100),
                 data_ultima_atualizacao := today }
      else q)
    ∧ db'.premios_ativos.map (fun q => q.codigo_premio)
        = db.premios_ativos.map (fun q => q.codigo_premio)
    ∧ ∃ r, st = RegStatus.ok r
        ∧ r.premio_gerado_nesta_compra = false
        ∧ r.codigo_premio_ativo = some p.codigo_premio
        ∧ r.compras_no_ciclo = c.compras_ciclo_atual + 1 := by
  unfold registrar_compra at hrun
  simp only [hc, calcular_pontos_validos] at hrun
  rw [hp] at hrun
  obtain ⟨h1, h2⟩ := Prod.mk.injEq _ _ _ _ ▸ hrun
  subst h2
  refine ⟨rfl, ?_, ⟨_, h1.symm, rfl, rfl, rfl⟩⟩
  show (db.premios_ativos.map _).map _ = _
  rw [List.map_map]
  apply List.map_congr_left
  intro q _
  by_cases hq : (q.codigo_cliente == codigo) = true
  · simp only [Function.comp_apply, if_pos hq]
  · simp only [Function.comp_apply, if_neg hq]

/-- Closed form of a successful `resgatar_premio` run. -/
theorem resgatar_premio_ok_eq (cp loja : String) (today : ℤ) (db : DB) (p : PremioAtivo)
    (hfind : db.premios_ativos.find? (fun q => q.codigo_premio == cp) = some p) :
    resgatar_premio cp loja today db =
      (ResgateStatus.ok (round2 ((p.pontos_premio : ℚ) / 100)),
       { clientes := db.clientes.map (fun cl =>
            if cl.codigo == p.codigo_cliente then
              { cl with compras_ciclo_atual := 0,
                        pontos_acumulados :=
                          soma_pontos_janela p.codigo_cliente today db.compras }
            else cl),
         compras := db.compras,
         premios_ativos := db.premios_ativos.filter (fun q => !(q.codigo_premio == cp)),
         premios_resgatados := db.premios_resgatados ++
           [{ codigo_premio := cp, codigo_cliente := p.codigo_cliente,
              pontos_resgatados := p.pontos_premio,
              valor_resgatado := round2 ((p.pontos_premio : ℚ) / 100),
              data_geracao := p.data_geracao, data_resgate := today,
              loja_resgate := loja }] }) := by
  unfold resgatar_premio
  rw [hfind]
  simp only [calcular_pontos_validos]
  refine Prod.ext rfl ?_
  show DB.mk _ _ _ _ = DB.mk _ _ _ _
  congr 1
  apply map_update_update
  intro x
  rfl

/-- C1: a successful redemption inserts a RedeemedPrize record carrying the
current prize point total, the original generation date, the current date
and the redeeming store, with monetary value points/100 rounded to two
decimals; it deletes the ActivePrize row, resets the cycle purchase counter
of the customer to zero, recomputes the valid points of the customer, and
returns the redeemed value. -/
theorem resgatar_premio_sucesso (cp loja : String) (today : ℤ) (db : DB) (p : PremioAtivo)
    (hfind : db.premios_ativos.find? (fun q => q.codigo_premio == cp) = some p) :
    (resgatar_premio cp loja today db).1
        = ResgateStatus.ok (round2 ((p.pontos_premio : ℚ) / 100))
    ∧ (resgatar_premio cp loja today db).2.premios_resgatados
        = db.premios_resgatados ++
          [{ codigo_premio := cp, codigo_cliente := p.codigo_cliente,
             pontos_resgatados := p.pontos_premio,
             valor_resgatado := round2 ((p.pontos_premio : ℚ) / 100),
             data_geracao := p.data_geracao, data_resgate := today, loja_resgate := loja }]
    ∧ (resgatar_premio cp loja today db).2.premios_ativos
        = db.premios_ativos.filter (fun q => !(q.codigo_premio == cp))
    ∧ ∀ cl ∈ (resgatar_premio cp loja today db).2.clientes,
        cl.codigo = p.codigo_cliente → cl.compras_ciclo_atual = 0 ∧
          cl.pontos_acumulados = soma_pontos_janela p.codigo_cliente today db.compras := by
  rw [resgatar_premio_ok_eq cp loja today db p hfind]
  refine ⟨rfl, rfl, rfl, ?_⟩
  intro cl hmem hcod
  rcases List.mem_map.mp hmem with ⟨x, hx, rfl⟩
  by_cases hxc : (x.codigo == p.codigo_cliente) = true
  · rw [if_pos hxc]
    exact ⟨rfl, rfl⟩
  · rw [if_neg hxc] at hcod ⊢
    exact absurd (beq_iff_eq.mpr hcod) hxc

/-- C10: a successful redemption never modifies the Purchase ledger and
never subtracts the redeemed points: the cached balance of the customer is
rewritten to the full 180-day window sum over the unchanged ledger, and
every customer field other than the cycle counter and the cached balance is
unchanged (rows of other customers are untouched). -/
theorem resgatar_premio_frame (cp loja : String) (today : ℤ) (db : DB) (p : PremioAtivo)
    (hfind : db.premios_ativos.find? (fun q => q.codigo_premio == cp) = some p) :
    (resgatar_premio cp loja today db).2.compras = db.compras
    ∧ (resgatar_premio cp loja today db).2.clientes = db.clientes.map (fun cl =>
        if cl.codigo == p.codigo_cliente then
          { cl with compras_ciclo_atual := 0,
                    pontos_acumulados := soma_pontos_janela p.codigo_cliente today db.compras }
        else cl) := by
  rw [resgatar_premio_ok_eq cp loja today db p hfind]
  exact ⟨rfl, rfl⟩

/-- C8: `resgatar_premio` is not idempotent: redeeming the same code twice
yields success on the first call and the NotFound outcome on the second,
because the first call deletes the ActivePrize row. -/
theorem resgatar_premio_nao_idempotente (cp loja₁ loja₂ : String) (t₁ t₂ : ℤ)
    (db : DB) (p : PremioAtivo)
    (hfind : db.premios_ativos.find? (fun q => q.codigo_premio == cp) = some p) :
    (∃ v, (resgatar_premio cp loja₁ t₁ db).1 = ResgateStatus.ok v)
    ∧ (resgatar_premio cp loja₂ t₂ (resgatar_premio cp loja₁ t₁ db).2).1
        = ResgateStatus.notFound := by
  rw [resgatar_premio_ok_eq cp loja₁ t₁ db p hfind]
  refine ⟨⟨_, rfl⟩, ?_⟩
  have hnone : (db.premios_ativos.filter (fun q => !(q.codigo_premio == cp))).find?
      (fun q => q.codigo_premio == cp) = none := by
    rw [List.find?_eq_none]
    intro x hx
    have := (List.mem_filter.mp hx).2
    simp only [Bool.not_eq_true'] at this
    simp [this]
  unfold resgatar_premio
  simp only [hnone]

/-- C3: within `registrar_compra`, a new ActivePrize is created exactly
when, after the cycle counter is incremented, the new cycle count is at
least 5, the recomputed valid-points balance is positive, and no
ActivePrize exists for the customer; the created prize is seeded with the
entire recomputed valid-points balance and the result reports it as newly
generated. -/
theorem registrar_compra_gera_premio (codigo : String) (valor : ℚ) (loja : String)
    (today : ℤ) (codes : List String) (db : DB) (c : Cliente) (r : ResultadoCompra) (db' : DB)
    (hc : db.clientes.find? (fun cl => cl.codigo == codigo) = some c)
    (hrun : registrar_compra codigo valor loja today codes db = (RegStatus.ok r, db')) :
    (r.premio_gerado_nesta_compra = true ↔
      (db.premios_ativos.find? (fun q => q.codigo_cliente == codigo) = none
        ∧ c.compras_ciclo_atual + 1 ≥ 5
        ∧ soma_pontos_janela codigo today
            (db.compras ++ [compraInserida codigo valor loja today c]) > 0))
    ∧ (r.premio_gerado_nesta_compra = true →
        db'.premios_ativos = db.premios_ativos ++
          [{ codigo_premio := codes.headD "10000", codigo_cliente := codigo,
             pontos_premio := soma_pontos_janela codigo today
               (db.compras ++ [compraInserida codigo valor loja today c]),
             data_geracao := today, data_ultima_atualizacao := today }]
        ∧ r.pontos_acumulados = soma_pontos_janela codigo today
            (db.compras ++ [compraInserida codigo valor loja today c])) := by
  unfold registrar_compra at hrun
  simp only [hc, calcular_pontos_validos, compraInserida] at hrun
  simp only [compraInserida]
  split at hrun
  · rename_i premio h1
    obtain ⟨hst, hdb⟩ := Prod.mk.injEq _ _ _ _ ▸ hrun
    obtain rfl := (RegStatus.ok.injEq _ _).mp hst
    constructor
    · constructor
      · intro hfalso
        simp at hfalso
      · rintro ⟨hnone, -, -⟩
        rw [h1] at hnone
        cases hnone
    · intro hfalso
      simp at hfalso
  · rename_i h1
    split at hrun
    · rename_i h2
      split at hrun
      · simp at hrun
      · rename_i h3
        obtain ⟨hst, hdb⟩ := Prod.mk.injEq _ _ _ _ ▸ hrun
        obtain rfl := (RegStatus.ok.injEq _ _).mp hst
        subst hdb
        exact ⟨⟨fun _ => ⟨h1, h2.1, h2.2⟩, fun _ => rfl⟩, fun _ => ⟨rfl, rfl⟩⟩
    · rename_i h2
      obtain ⟨hst, hdb⟩ := Prod.mk.injEq _ _ _ _ ▸ hrun
      obtain rfl := (RegStatus.ok.injEq _ _).mp hst
      constructor
      · constructor
        · intro hfalso
          simp at hfalso
        · rintro ⟨-, hge, hpos⟩
          exact absurd ⟨hge, hpos⟩ h2
      · intro hfalso
        simp at hfalso

/-- Purchase registration preserves per-customer uniqueness of active prizes. -/
theorem premio_unico_registrar (codigo : String) (valor : ℚ) (loja : String) (today : ℤ)
    (codes : List String) (db : DB) (h : premio_unico db) :
    premio_unico (registrar_compra codigo valor loja today codes db).2 := by
  unfold registrar_compra
  cases hfind : db.clientes.find? (fun cl => cl.codigo == codigo) with
  | none => exact h
  | some c =>
    simp only [calcular_pontos_validos]
    split
    · rename_i premio h1
      intro s
      show (db.premios_ativos.map _).countP _ ≤ 1
      rw [List.countP_map]
      refine le_trans (le_of_eq (List.countP_congr ?_)) (h s)
      intro x _
      by_cases hx : (x.codigo_cliente == codigo) = true
      · simp only [Function.comp_apply, if_pos hx]
      · simp only [Function.comp_apply, if_neg hx]
    · rename_i h1
      split
      · rename_i h2
        split
        · exact h
        · rename_i h3
          intro s
          show (db.premios_ativos ++ [_]).countP _ ≤ 1
          rw [List.countP_append]
          by_cases hs : (codigo == s) = true
          · have hz : db.premios_ativos.countP (fun q => q.codigo_cliente == s) = 0 := by
              rw [List.countP_eq_zero]
              intro q hq
              have hq1 := List.find?_eq_none.mp h1 q hq
              obtain rfl := beq_iff_eq.mp hs
              exact hq1
            rw [hz, Nat.zero_add]
            exact List.countP_le_length _
          · simpa [List.countP_cons, hs] using h s
      · exact h

/-- Redemption preserves per-customer uniqueness of active prizes. -/
theorem premio_unico_resgatar (cp loja : String) (today : ℤ) (db : DB) (h : premio_unico db) :
    premio_unico (resgatar_premio cp loja today db).2 := by
  unfold resgatar_premio
  cases hfind : db.premios_ativos.find? (fun q => q.codigo_premio == cp) with
  | none => exact h
  | some p =>
    simp only [calcular_pontos_validos]
    intro s
    show (db.premios_ativos.filter _).countP _ ≤ 1
    rw [List.countP_filter]
    calc db.premios_ativos.countP _
        ≤ db.premios_ativos.countP (fun q => q.codigo_cliente == s) := by
          apply List.countP_mono_left
          intro x _ hx
          exact (Bool.and_eq_true _ _).mp hx |>.1
      _ ≤ 1 := h s

/-- C2: along every sequence of purchase registrations and redemptions, at
most one ActivePrize row exists per customer: a purchase while a prize is
active accumulates into it, and a new prize is only inserted when none
exists for that customer. -/
theorem premio_unico_invariante (db : DB) (ops : List Op) (h : premio_unico db) :
    premio_unico (applyOps db ops) := by
  induction ops generalizing db with
  | nil => exact h
  | cons op t ih =>
    cases op with
    | compra codigo valor loja today codes =>
      exact ih _ (premio_unico_registrar codigo valor loja today codes db h)
    | resgate cp loja today =>
      exact ih _ (premio_unico_resgatar cp loja today db h)

/-- C4 (amended): when a new ActivePrize is to be created the code is drawn
once; if the drawn code collides with an existing prize code, the insert
fails, the transaction is rolled back leaving the database unchanged, and
the failure is surfaced to the caller; the collision is never silently
ignored, and no retry with a fresh code is attempted. -/
theorem registrar_compra_colisao (codigo : String) (valor : ℚ) (loja : String)
    (today : ℤ) (codes : List String) (db : DB) (c : Cliente)
    (hc : db.clientes.find? (fun cl => cl.codigo == codigo) = some c)
    (hnone : db.premios_ativos.find? (fun q => q.codigo_cliente == codigo) = none)
    (hge : c.compras_ciclo_atual + 1 ≥ 5)
    (hpos : soma_pontos_janela codigo today
      (db.compras ++ [compraInserida codigo valor loja today c]) > 0)
    (hcol : db.premios_ativos.any (fun q => q.codigo_premio == codes.headD "10000") = true) :
    registrar_compra codigo valor loja today codes db = (RegStatus.falha, db) := by
  simp only [compraInserida] at hpos
  unfold registrar_compra
  simp only [hc, calcular_pontos_validos]
  rw [hnone]
  rw [if_pos (And.intro hge hpos)]
  obtain ⟨x, hx, hxe⟩ := List.any_eq_true.mp hcol
  rw [if_pos (List.any_eq_true.mpr ⟨x, hx, by rw [hxe]; exact Bool.true_or _⟩)]

/-- C4 counterexample: the claim that a collision leads to a regenerated
code and a retried insert is false: with the draw stream
["11111", "22222"], where 11111 collides and 22222 is fresh, the run fails
outright, although the very same run consuming 22222 first succeeds. -/
theorem registrar_compra_sem_retry_contraexemplo :
    (registrar_compra "00002" 10 "L" 100 ["11111", "22222"] dbColisao).1 = RegStatus.falha
    ∧ (registrar_compra "00002" 10 "L" 100 ["22222"] dbColisao).1 ≠ RegStatus.falha := by
  have e1 : ("00001" == "00002") = false := by decide
  have e2 : ("00002" == "00002") = true := by decide
  have e3 : ("11111" == "11111") = true := by decide
  have e4 : ("11111" == "22222") = false := by decide
  constructor
  · norm_num [registrar_compra, calcular_pontos_validos, soma_pontos_janela, dbColisao,
      clienteSimples, premioColisao, pyTrunc, e1, e2, e3, e4]
  · intro hfalso
    norm_num [registrar_compra, calcular_pontos_validos, soma_pontos_janela, dbColisao,
      clienteSimples, premioColisao, pyTrunc, e1, e2, e3, e4] at hfalso
    exact RegStatus.noConfusion hfalso

theorem resgatar_premio_sucesso_witness :
    (resgatar_premio "12345" "LR" 104 dbPremio).1
      = ResgateStatus.ok (round2 ((premioW.pontos_premio : ℚ) / 100)) :=
  (resgatar_premio_sucesso "12345" "LR" 104 dbPremio premioW (by decide)).1

theorem premio_unico_invariante_witness :
    premio_unico (applyOps dbPremio
      [Op.compra "00001" 5 "L" 103 [], Op.resgate "12345" "LR" 104]) :=
  premio_unico_invariante dbPremio
    [Op.compra "00001" 5 "L" 103 [], Op.resgate "12345" "LR" 104]
    (fun _ => List.countP_le_length _)

theorem registrar_compra_gera_premio_witness :
    (registrar_compra "00001" 10 "L" 100 ["77777"] dbCiclo4).2.premios_ativos
      = dbCiclo4.premios_ativos ++
        [{ codigo_premio := "77777", codigo_cliente := "00001",
           pontos_premio := soma_pontos_janela "00001" 100 (dbCiclo4.compras ++
             [compraInserida "00001" 10 "L" 100 (clienteSimples "00001" 4 30 3000 4)]),
           data_geracao := 100, data_ultima_atualizacao := 100 }] := by
  have h1 : (registrar_compra "00001" 10 "L" 100 ["77777"] dbCiclo4).1
      = RegStatus.ok rGera := by
    norm_num [registrar_compra, calcular_pontos_validos, soma_pontos_janela, dbCiclo4,
      clienteSimples, rGera, pyTrunc]
  have h := registrar_compra_gera_premio "00001" 10 "L" 100 ["77777"] dbCiclo4
    (clienteSimples "00001" 4 30 3000 4) rGera
    (registrar_compra "00001" 10 "L" 100 ["77777"] dbCiclo4).2 (by decide)
    (Prod.ext h1 rfl)
  exact (h.2 (by rfl)).1

theorem registrar_compra_colisao_witness :
    registrar_compra "00002" 10 "L" 100 ["11111", "22222"] dbColisao
      = (RegStatus.falha, dbColisao) :=
  registrar_compra_colisao "00002" 10 "L" 100 ["11111", "22222"] dbColisao
    (clienteSimples "00002" 4 8 800 4) (by decide) (by decide) (by decide)
    (by norm_num [soma_pontos_janela, dbColisao, compraInserida, clienteSimples, pyTrunc])
    (by decide)

theorem calcular_pontos_validos_spec_witness :
    (calcular_pontos_validos "00001" 104 dbPremio).1
      = ((dbPremio.compras.filter (fun co =>
          co.codigo_cliente == "00001" && decide ((104:ℤ) - 180 ≤ co.data))).map
        (fun co => co.pontos_gerados)).sum :=
  (calcular_pontos_validos_spec "00001" 104 dbPremio
    (clienteSimples "00001" 6 40 4000 6) (by decide)).1

theorem registrar_compra_insere_witness :
    (registrar_compra "00001" 10 "L" 100 [] dbZero).2.compras
      = dbZero.compras ++
        [{ codigo_cliente := "00001",
           numero_compra_geral := (clienteSimples "00001" 0 0 0 0).total_compras + 1,
           valor := 10, pontos_gerados := pyTrunc (10 * 100), data := 100,
           loja_compra := "L" }] := by
  have h1 : (registrar_compra "00001" 10 "L" 100 [] dbZero).1 = RegStatus.ok rZero := by
    norm_num [registrar_compra, calcular_pontos_validos, soma_pontos_janela, dbZero,
      clienteSimples, rZero, pyTrunc]
  exact (registrar_compra_insere "00001" 10 "L" 100 [] dbZero
    (clienteSimples "00001" 0 0 0 0) rZero
    (registrar_compra "00001" 10 "L" 100 [] dbZero).2
    (by norm_num) (by decide) (Prod.ext h1 rfl)).1

theorem registrar_compra_acumula_witness :
    ∃ r, (registrar_compra "00001" 5 "L" 103 [] dbPremio).1 = RegStatus.ok r
      ∧ r.premio_gerado_nesta_compra = false
      ∧ r.codigo_premio_ativo = some premioW.codigo_premio := by
  have h := registrar_compra_acumula "00001" 5 "L" 103 [] dbPremio
    (clienteSimples "00001" 6 40 4000 6) premioW
    (registrar_compra "00001" 5 "L" 103 [] dbPremio).1
    (registrar_compra "00001" 5 "L" 103 [] dbPremio).2
    (by decide) (by decide) rfl
  obtain ⟨r, hst, hf, hcp, hcy⟩ := h.2.2
  exact ⟨r, hst, hf, hcp⟩

theorem resgatar_premio_nao_idempotente_witness :
    (resgatar_premio "12345" "LR" 105 (resgatar_premio "12345" "LR" 104 dbPremio).2).1
      = ResgateStatus.notFound :=
  (resgatar_premio_nao_idempotente "12345" "LR" "LR" 104 105 dbPremio premioW (by decide)).2

theorem registrar_compra_notFound_rollback_witness :
    registrar_compra "99999" 10 "L" 100 [] dbPremio = (RegStatus.notFound, dbPremio) :=
  (registrar_compra_notFound_rollback "99999" 10 "L" 100 [] dbPremio).1 (by decide)

theorem resgatar_premio_frame_witness :
    (resgatar_premio "12345" "LR" 104 dbPremio).2.compras = dbPremio.compras :=
  (resgatar_premio_frame "12345" "LR" 104 dbPremio premioW (by decide)).1
